import Mathlib

/-!
Verification of the `sequelize-schema-sync` repository's diff engine
(`src/diff.ts`, class `SchemaDiffer`) and migration generator
(`src/generator.ts`, class `MigrationGenerator`).

The TypeScript source is shallowly embedded: the loosely typed JavaScript
values that flow through default-value normalization are modelled by `JSVal`,
column/attribute objects by the record `Col`, and the two I/O calls of the
query interface (`showAllTables`, `describeTable`) by an explicit `DB`
snapshot whose results are `Option`-valued (`none` models the call throwing).
Numeric JavaScript values are modelled as rationals (`parseInt`/`parseFloat`
of the decimal strings accepted by the source's regexes are exact, so no
floating-point rounding is involved on the reachable values).
-/

namespace SchemaSync

/-! ## JavaScript string primitives used by the source -/

/-- JS `String.prototype.toLowerCase` (ASCII, which is all the source feeds it). -/
def jsToLower (s : String) : String := String.mk (s.data.map Char.toLower)

/-- JS `String.prototype.toUpperCase` (ASCII). -/
def jsToUpper (s : String) : String := String.mk (s.data.map Char.toUpper)

/-- Tests whether `needle` occurs at the start of `hay`. -/
def chLeads : List Char → List Char → Bool
  | [], _ => true
  | _ :: _, [] => false
  | a :: as, b :: bs => a == b && chLeads as bs

/-- Tests whether `needle` occurs somewhere in `hay`
(JS `String.prototype.includes`). -/
def chHasSub : List Char → List Char → Bool
  | [], needle => needle.isEmpty
  | a :: t, needle => chLeads needle (a :: t) || chHasSub t needle

/-- JS `s.includes(sub)`. -/
def strHas (s sub : String) : Bool := chHasSub s.data sub.data

/-- JS `s.startsWith(p)`. -/
def strLeadsW (s p : String) : Bool := chLeads p.data s.data

/-- JS `s.endsWith(p)`. -/
def strEndsW (s p : String) : Bool := chLeads p.data.reverse s.data.reverse

/-- JS `s.trim()` (whitespace at both ends removed). -/
def jsTrim (s : String) : String :=
  ⟨((s.data.dropWhile Char.isWhitespace).reverse.dropWhile Char.isWhitespace).reverse⟩

/-- JS `s.slice(1, -1)`: drop the first and the last character. -/
def jsSlice1m1 (s : String) : String := ⟨(s.data.drop 1).dropLast⟩

/-- The regex test `/^\d+$/.test(s)`. -/
def isAllDigits (s : String) : Bool := !s.data.isEmpty && s.data.all Char.isDigit

/-- Numeric value of a digit string (`parseInt(s, 10)` on an all-digit string). -/
def natOfDigits (l : List Char) : Nat := l.foldl (fun n c => 10 * n + (c.toNat - 48)) 0

/-- The regex test `/^\d+\.\d+$/.test(s)`. -/
def isDecimalStr (s : String) : Bool :=
  let d1 := s.data.takeWhile Char.isDigit
  let rest := s.data.dropWhile Char.isDigit
  match rest with
  | '.' :: r2 => !d1.isEmpty && !r2.isEmpty && r2.all Char.isDigit
  | _ => false

/-- Value of `parseFloat` on a string matching `/^\d+\.\d+$/`, as an exact rational. -/
def ratOfDecimal (s : String) : Rat :=
  let d1 := s.data.takeWhile Char.isDigit
  let rest := s.data.dropWhile Char.isDigit
  match rest with
  | '.' :: r2 => (natOfDigits d1 : Rat) + (natOfDigits r2 : Rat) / ((10 : Rat) ^ r2.length)
  | _ => (natOfDigits d1 : Rat)

/-! ## JavaScript values

`vObj`/`vDate`/`vFun` carry a reference identity (`id`) and the result of
their `toString()`; strict equality on objects is reference equality.
`vArr` is the fresh empty-array literal `[]` produced by
`normalizeDefaultValue`; two such results are distinct fresh references,
so strict equality between them is `false`. -/

inductive JSVal where
  | vNull
  | vUndefined
  | vBool (b : Bool)
  | vNum (q : Rat)
  | vStr (s : String)
  | vArr
  | vDate (id : Nat) (repr : String)
  | vFun (id : Nat) (repr : String)
  | vObj (id : Nat) (repr : String)
deriving DecidableEq

/-- JS truthiness of a value. -/
def jsTruthy : JSVal → Bool
  | .vNull | .vUndefined => false
  | .vBool b => b
  | .vNum q => !(q == 0)
  | .vStr s => !(s == "")
  | .vArr => true
  | .vDate _ _ => true
  | .vFun _ _ => true
  | .vObj _ _ => true

/-- JS `value.toString()` / `String(value)`. Rationals print via their
numerator when integral (only the comparison with the literal
`"DataTypes.NOW"` is ever observed by the diff engine). -/
def jsToStr : JSVal → String
  | .vNull => "null"
  | .vUndefined => "undefined"
  | .vBool b => if b then "true" else "false"
  | .vNum q => toString q.num
  | .vStr s => s
  | .vArr => ""
  | .vDate _ r => r
  | .vFun _ r => r
  | .vObj _ r => r

/-- JS strict equality `===` on the values the normalizer produces.
Fresh arrays (`vArr`) compare by reference, hence unequal; objects,
dates and functions compare by their reference identity. -/
def jsStrictEq : JSVal → JSVal → Bool
  | .vNull, .vNull => true
  | .vUndefined, .vUndefined => true
  | .vBool a, .vBool b => a == b
  | .vNum a, .vNum b => a == b
  | .vStr a, .vStr b => a == b
  | .vArr, .vArr => false
  | .vDate i _, .vDate j _ => i == j
  | .vFun i _, .vFun j _ => i == j
  | .vObj i _, .vObj j _ => i == j
  | _, _ => false

/-! ## Column / attribute descriptors

`Col` models both an introspected database column (`describeTable` output)
and a model attribute (`rawAttributes` entry).  `type` is the string
representation of the column's type (the source lowercases `String(type)`
whatever shape it has, so the embedding takes the rendered string).
`allowNull` is boolean-or-absent (`none` = the property is `undefined`);
`primaryKey`, `autoIncrement`, `unique` record JS truthiness of those
properties; `values` records whether the attribute has an array `values`
property (ENUM values); `references` carries the JSON rendering of a
truthy `references` object, if any. -/

structure Col where
  type : String
  allowNull : Option Bool
  primaryKey : Bool
  autoIncrement : Bool
  unique : Bool
  defaultValue : JSVal
  values : Bool
  references : Option String
deriving DecidableEq

/-! ## `SchemaDiffer.normalizeDataType` (src/diff.ts lines 287-330) -/

/-- The ordered substring-match table of `normalizeDataType`
(object-literal insertion order, first match wins). -/
def typeMapList : List (String × String) :=
  [("character varying", "varchar"),
   ("character varying(255)", "varchar(255)"),
   ("integer", "integer"),
   ("bigint", "bigint"),
   ("double precision", "double"),
   ("real", "float"),
   ("boolean", "boolean"),
   ("timestamp without time zone", "timestamp"),
   ("timestamp with time zone", "timestamptz"),
   ("time without time zone", "time"),
   ("text", "text"),
   ("json", "json"),
   ("jsonb", "jsonb"),
   ("decimal", "decimal"),
   ("numeric", "decimal"),
   ("uuid", "uuid")]

/-- One attempted match of the regex `\(\d+(\,\d+)?\)` at the head of the
list; on success returns the remainder after the matched text. -/
def parenNumMatch : List Char → Option (List Char)
  | '(' :: r =>
    let d1 := r.takeWhile Char.isDigit
    let r1 := r.dropWhile Char.isDigit
    if d1.isEmpty then none else
    match r1 with
    | ')' :: rest => some rest
    | ',' :: r2 =>
      let d2 := r2.takeWhile Char.isDigit
      let r3 := r2.dropWhile Char.isDigit
      if d2.isEmpty then none else
      match r3 with
      | ')' :: rest => some rest
      | _ => none
    | _ => none
  | _ => none

/-- Left-to-right scan performing the global replace
`typeStr.replace(/\(\d+(\,\d+)?\)/g, '')`; fuelled by the input length
(each step consumes at least one character). -/
def stripParenAux : Nat → List Char → List Char
  | _, [] => []
  | 0, l => l
  | Nat.succ fuel, c :: t =>
    match parenNumMatch (c :: t) with
    | some rest => stripParenAux fuel rest
    | none => c :: stripParenAux fuel t

/-- Global replace of `(digits)` or `(digits,digits)` groups by nothing. -/
def stripParenNums (s : String) : String := ⟨stripParenAux s.data.length s.data⟩

/-- Embedding of `SchemaDiffer.normalizeDataType`: all three `typeof` branches lowercase
the string rendering of the type; then the first substring match of the
table rewrites it; finally precision/scale parentheses are removed. -/
def normalizeDataType (type : String) : String :=
  let typeStr := jsToLower type
  let typeStr :=
    match typeMapList.find? (fun p => strHas typeStr p.1) with
    | some p => p.2
    | none => typeStr
  stripParenNums typeStr

/-! ## `SchemaDiffer.normalizeDefaultValue` (src/diff.ts lines 332-384) -/

/-- Embedding of `SchemaDiffer.normalizeDefaultValue`, line by line from the source. -/
def normalizeDefaultValue (value : JSVal) : JSVal :=
  match value with
  | .vUndefined => .vNull
  | .vNull => .vNull
  | v =>
    if jsTruthy v && (jsToStr v == "DataTypes.NOW") then .vStr "now()"
    else
      match v with
      | .vStr s =>
        let lowerValue := jsTrim (jsToLower s)
        if lowerValue == "now()" || lowerValue == "current_timestamp" ||
           strHas lowerValue "now()" || strHas lowerValue "current_timestamp" then
          .vStr "now()"
        else if (strLeadsW s "\x27" && strEndsW s "\x27") ||
                (strLeadsW s "\"" && strEndsW s "\"") then
          .vStr (jsSlice1m1 s)
        else if lowerValue == "true" || lowerValue == "t" then .vBool true
        else if lowerValue == "false" || lowerValue == "f" then .vBool false
        else if isAllDigits s then .vNum (natOfDigits s.data : Nat)
        else if isDecimalStr s then .vNum (ratOfDecimal s)
        else if lowerValue == "[]" || lowerValue == "\x7b\x7d" then
          (if lowerValue == "[]" then .vArr else .vNull)
        else .vStr s
      | .vBool _ => v
      | .vNum _ => v
      | _ => v

/-! ## `SchemaDiffer.hasColumnChanged` (src/diff.ts lines 207-285) -/

/-- Does the (raw) default value contain the text `nextval`
(`typeof v === 'string' && v.includes('nextval')`)? -/
def isNextvalStr : JSVal → Bool
  | .vStr s => strHas s "nextval"
  | _ => false

/-- The type-equivalence decision of `hasColumnChanged` (lines 208-230)
after both sides were normalized: the desired-side ENUM vs actual-side
VARCHAR rewrite (guarded by the model attribute having an array `values`),
the time/timestamp-to-date rewrite, then equality of the results. -/
def typesEquivalentNorm (existingType0 modelType : String) (modelHasValues : Bool) : Bool :=
  let existingType1 :=
    if modelType == "enum" &&
       (existingType0 == "varchar" || existingType0 == "varchar(255)") &&
       modelHasValues then "enum"
    else existingType0
  let tsRewrite :=
    (existingType1 == "time" || existingType1 == "timestamp" ||
     existingType1 == "timestamptz") &&
    (modelType == "date" || modelType == "timestamptz")
  let existingType2 := if tsRewrite then "date" else existingType1
  let modelType2 := if tsRewrite then "date" else modelType
  existingType2 == modelType2

/-- The full type-equivalence decision of `hasColumnChanged`
(lines 208-230): normalization of both raw types, then the special-case
rewrites and the equality test. -/
def typesEquivalent (existingRaw modelRaw : String) (modelHasValues : Bool) : Bool :=
  typesEquivalentNorm (normalizeDataType existingRaw) (normalizeDataType modelRaw)
    modelHasValues

/-- Effective nullability of the desired column (lines 234-237):
`allowNull !== false`, forced to `false` for PK / auto-increment. -/
def modelAllowNullOf (mo : Col) : Bool :=
  if mo.primaryKey || mo.autoIncrement then false
  else mo.allowNull != some false

/-- Effective nullability of the actual column (lines 233, 238-240): the raw
`allowNull` value, forced to `false` for PK / auto-increment. -/
def existingAllowNullOf (ex : Col) : Option Bool :=
  if ex.primaryKey || ex.autoIncrement then some false
  else ex.allowNull

/-- Auto-increment of the actual column (lines 255-259): the flag, or a
string default containing `nextval`. -/
def existingAutoIncOf (ex : Col) : Bool :=
  ex.autoIncrement || isNextvalStr ex.defaultValue

/-- Embedding of `SchemaDiffer.hasColumnChanged`: the six facet checks in source order,
short-circuiting on the first difference.  In the `nextval` branch of the
default comparison the source aliases `existingDefault = modelDefault`
before the `!==` test, so that test is then always false (`x !== x` only
holds for `NaN`, which no reachable default is); the embedding returns
`false` directly there. -/
def hasColumnChanged (existingColumn modelColumn : Col) : Bool :=
  if !(typesEquivalent existingColumn.type modelColumn.type modelColumn.values) then true
  else if existingAllowNullOf existingColumn != some (modelAllowNullOf modelColumn) then true
  else if existingColumn.primaryKey != modelColumn.primaryKey then true
  else if existingAutoIncOf existingColumn != modelColumn.autoIncrement then true
  else if existingColumn.unique != modelColumn.unique then true
  else if modelColumn.autoIncrement && isNextvalStr existingColumn.defaultValue then false
  else
    !(jsStrictEq (normalizeDefaultValue existingColumn.defaultValue)
                 (normalizeDefaultValue modelColumn.defaultValue))

/-! ## Diff data model (src/types.ts) and the introspection snapshot -/

/-- The `ColumnDifference` record (src/types.ts): action plus the `from`/`to` payloads
the source attaches for that action. -/
inductive ColumnDifference where
  | add (column : String) (toDef : Col)
  | remove (column : String) (fromDef : Col)
  | change (column : String) (fromDef : Col) (toDef : Col)
deriving DecidableEq

/-- The column name of a `ColumnDifference`. -/
def ColumnDifference.column : ColumnDifference → String
  | .add c _ => c
  | .remove c _ => c
  | .change c _ _ => c

/-- Is this a `remove` difference? -/
def ColumnDifference.isRemove : ColumnDifference → Bool
  | .remove _ _ => true
  | _ => false

/-- The `TableDifference` record (src/types.ts): exactly one of the three actions,
with the payload the source attaches (`definition` for `create`,
`columns` for `alter`, nothing for `drop`). -/
inductive TableDifference where
  | create (table : String) (definition : List (String × Col))
  | drop (table : String)
  | alter (table : String) (columns : List ColumnDifference)
deriving DecidableEq

/-- The table name of a `TableDifference`. -/
def TableDifference.table : TableDifference → String
  | .create t _ => t
  | .drop t => t
  | .alter t _ => t

/-- Is this a `drop` difference? -/
def TableDifference.isDrop : TableDifference → Bool
  | .drop _ => true
  | _ => false

/-- The `SchemaDiff` record (src/types.ts). -/
structure SchemaDiff where
  tables : List TableDifference
  hasChanges : Bool
deriving DecidableEq

/-- A loaded model: its `tableName` and its `rawAttributes`
(an ordered association list; JS object keys are unique and iterate in
insertion order). -/
structure ModelT where
  tableName : String
  attributes : List (String × Col)
deriving DecidableEq

/-- The introspection snapshot backing one diff run.  `none` models the
corresponding query-interface call throwing; `some` its successful result.
`describeTable` results are ordered association lists of columns. -/
structure DB where
  showAllTables : Option (List String)
  describeTable : String → Option (List (String × Col))

/-! ## `SchemaDiffer` table-level logic (src/diff.ts lines 24-205) -/

/-- The per-table filter of `getExistingTables` (lines 90-95). -/
def keepTable (table : String) : Bool :=
  let tableName := jsToLower table
  !(strHas tableName "sequelizemeta") &&
  !(strHas tableName "sqlite_sequence") &&
  !(strLeadsW tableName "sqlite_")

/-- Embedding of `SchemaDiffer.getExistingTables` (lines 86-100): on success the tables
are filtered; a failure of `showAllTables` is caught (a warning is logged)
and an empty list is returned. -/
def getExistingTables (db : DB) : List String :=
  match db.showAllTables with
  | some tables => tables.filter keepTable
  | none => []

/-- Embedding of `SchemaDiffer.convertAttributeToQueryInterface` (lines 178-205): the
definition record built from a model attribute.  Absent optional properties
of the result are the `false`/`none`/`vUndefined` defaults; the converted
record has no `values` property. -/
def convertAttributeToQueryInterface (attr : Col) : Col :=
  { type := attr.type
    allowNull := some (attr.allowNull != some false)
    primaryKey := attr.primaryKey
    autoIncrement := attr.autoIncrement
    defaultValue := attr.defaultValue
    unique := attr.unique
    references := attr.references
    values := false }

/-- Embedding of `SchemaDiffer.getModelTableDefinition` (lines 102-111). -/
def getModelTableDefinition (model : ModelT) : List (String × Col) :=
  model.attributes.map (fun p => (p.1, convertAttributeToQueryInterface p.2))

/-- The first loop of `compareTableColumns` (lines 130-157): over the model
attributes in order, emitting `add` for names absent from the database and
`change` for present-but-changed columns. -/
def addsAndChanges (modelAttributes existingColumns : List (String × Col)) :
    List ColumnDifference :=
  modelAttributes.filterMap (fun p =>
    match existingColumns.lookup p.1 with
    | none => some (.add p.1 (convertAttributeToQueryInterface p.2))
    | some existingColumn =>
      if hasColumnChanged existingColumn p.2 then
        some (.change p.1 existingColumn (convertAttributeToQueryInterface p.2))
      else none)

/-- The second loop of `compareTableColumns` (lines 160-169): over the
database columns in order, emitting `remove` for names absent from the
model. -/
def removals (modelAttributes existingColumns : List (String × Col)) :
    List ColumnDifference :=
  existingColumns.filterMap (fun p =>
    if (modelAttributes.map Prod.fst).contains p.1 then none
    else some (.remove p.1 p.2))

/-- Embedding of `SchemaDiffer.compareTableColumns` (lines 113-176): a failing
`describeTable` is caught (a warning is logged) and yields no differences;
otherwise both loops run over the described columns. -/
def compareTableColumns (model : ModelT) (db : DB) : List ColumnDifference :=
  match db.describeTable model.tableName with
  | none => []
  | some existingColumns =>
    addsAndChanges model.attributes existingColumns ++
    removals model.attributes existingColumns

/-- The body of the first loop of `generateDiff` (lines 38-65): a missing
table yields `create`, a present table with a non-empty column-difference
list yields `alter`, otherwise nothing is pushed. -/
def diffFromModel (existingTables : List String) (db : DB) (model : ModelT) :
    Option TableDifference :=
  if !(existingTables.contains model.tableName) then
    some (TableDifference.create model.tableName (getModelTableDefinition model))
  else if (compareTableColumns model db).length > 0 then
    some (TableDifference.alter model.tableName (compareTableColumns model db))
  else none

/-- The body of the second loop of `generateDiff` (lines 68-76): an
introspected table no model maps to yields `drop`. -/
def diffFromExisting (modelTableNames : List String) (existingTable : String) :
    Option TableDifference :=
  if !(modelTableNames.contains existingTable) then
    some (TableDifference.drop existingTable)
  else none

/-- Embedding of `SchemaDiffer.generateDiff` (lines 24-84): the first loop over the
models emits `create` for missing tables and `alter` for tables with a
non-empty column-difference list; the second loop over the introspected
tables emits `drop` for tables no model maps to. -/
def generateDiff (models : List ModelT) (db : DB) : SchemaDiff :=
  let existingTables := getExistingTables db
  let modelTableNames := models.map ModelT.tableName
  let differences :=
    models.filterMap (diffFromModel existingTables db) ++
    existingTables.filterMap (diffFromExisting modelTableNames)
  { tables := differences, hasChanges := differences.length > 0 }

/-! ## `MigrationGenerator` (src/generator.ts)

Only the pure migration-data construction is embedded: file naming inputs
(the timestamp from the clock and the generated migration name) are
parameters, and the file write is outside the model. -/

/-- The ordered substring-match table of `MigrationGenerator.formatDataType`
(lines 214-230), matched against the uppercased type string. -/
def dataTypeMapList : List (String × String) :=
  [("VARCHAR(255)", "DataTypes.STRING"),
   ("TEXT", "DataTypes.TEXT"),
   ("INTEGER", "DataTypes.INTEGER"),
   ("BIGINT", "DataTypes.BIGINT"),
   ("FLOAT", "DataTypes.FLOAT"),
   ("DOUBLE", "DataTypes.DOUBLE"),
   ("DECIMAL", "DataTypes.DECIMAL"),
   ("BOOLEAN", "DataTypes.BOOLEAN"),
   ("TINYINT(1)", "DataTypes.BOOLEAN"),
   ("DATE", "DataTypes.DATE"),
   ("DATEONLY", "DataTypes.DATEONLY"),
   ("TIME", "DataTypes.TIME"),
   ("UUID", "DataTypes.UUID"),
   ("JSON", "DataTypes.JSON"),
   ("JSONB", "DataTypes.JSONB")]

/-- Search of the regex `/VARCHAR\((\d+)\)/i`: first occurrence of
`VARCHAR(` digits `)` in the (already uppercased) character list, returning
the captured digit group. -/
def varcharCapture : List Char → Option (List Char)
  | [] => none
  | c :: t =>
    if chLeads "VARCHAR(".data (c :: t) then
      let r := (c :: t).drop 8
      let d := r.takeWhile Char.isDigit
      match r.dropWhile Char.isDigit with
      | ')' :: _ => if d.isEmpty then varcharCapture t else some d
      | _ => varcharCapture t
    else varcharCapture t

/-- Embedding of `MigrationGenerator.formatDataType` (lines 210-247). -/
def formatDataType (type : String) : String :=
  let typeStr := type
  match dataTypeMapList.find? (fun p => strHas (jsToUpper typeStr) p.1) with
  | some p => p.2
  | none =>
    match varcharCapture (jsToUpper typeStr).data with
    | some d => "DataTypes.STRING(" ++ String.mk d ++ ")"
    | none => "DataTypes.STRING"

/-- Match of the regex
`/^\w{3} \w{3} \d{2} \d{4} \d{2}:\d{2}:\d{2}/` (a serialized `Date`). -/
def looksLikeDateStr (s : String) : Bool :=
  let isW := fun (c : Char) => c.isAlphanum || c == '_'
  match s.data with
  | a :: b :: c :: ' ' :: d :: e :: f :: ' ' :: g :: h :: ' ' ::
    i :: j :: k :: l :: ' ' :: m :: n :: ':' :: o :: p :: ':' :: q :: r :: _ =>
    [a, b, c, d, e, f].all isW &&
    [g, h, m, n, o, p, q, r].all Char.isDigit &&
    [i, j, k, l].all Char.isDigit
  | _ => false

/-- Rendering of a default value in `formatColumnDefinition`
(lines 166-194): `Date` objects and date-looking strings become
`DataTypes.NOW`, other strings are single-quoted, functions mentioning
`NOW`/`CURRENT_TIMESTAMP` become `DataTypes.NOW`, everything else renders
via `String(...)`. -/
def formatDefaultValue : JSVal → String
  | .vDate _ _ => "DataTypes.NOW"
  | .vStr s => if looksLikeDateStr s then "DataTypes.NOW" else "\x27" ++ s ++ "\x27"
  | .vFun i r =>
    if strHas r "NOW" || strHas r "CURRENT_TIMESTAMP" then "DataTypes.NOW"
    else jsToStr (.vFun i r)
  | v => jsToStr v

/-- Embedding of `MigrationGenerator.formatColumnDefinition`
(lines 141-208): only the facets present on the descriptor are rendered. -/
def formatColumnDefinition (columnDef : Col) : String :=
  let parts : List String :=
    (if columnDef.type != "" then ["type: " ++ formatDataType columnDef.type] else []) ++
    (match columnDef.allowNull with
     | some b => ["allowNull: " ++ (if b then "true" else "false")]
     | none => []) ++
    (if columnDef.primaryKey then ["primaryKey: true"] else []) ++
    (if columnDef.autoIncrement then ["autoIncrement: true"] else []) ++
    (if columnDef.defaultValue != JSVal.vUndefined then
       ["defaultValue: " ++ formatDefaultValue columnDef.defaultValue] else []) ++
    (if columnDef.unique then ["unique: true"] else []) ++
    (match columnDef.references with
     | some r => ["references: " ++ r]
     | none => [])
  "\x7b " ++ String.intercalate ", " parts ++ " \x7d"

/-- Embedding of `MigrationGenerator.generateColumnMigration`
(lines 116-139): the forward/backward statement pair of one column
difference. -/
def generateColumnMigration (tableName : String) (column : ColumnDifference) :
    String × String :=
  match column with
  | .add c toDef =>
    ("  await queryInterface.addColumn(\x27" ++ tableName ++ "\x27, \x27" ++ c ++
       "\x27, " ++ formatColumnDefinition toDef ++ ");",
     "  await queryInterface.removeColumn(\x27" ++ tableName ++ "\x27, \x27" ++ c ++
       "\x27);")
  | .remove c fromDef =>
    ("  await queryInterface.removeColumn(\x27" ++ tableName ++ "\x27, \x27" ++ c ++
       "\x27);",
     "  await queryInterface.addColumn(\x27" ++ tableName ++ "\x27, \x27" ++ c ++
       "\x27, " ++ formatColumnDefinition fromDef ++ ");")
  | .change c fromDef toDef =>
    ("  await queryInterface.changeColumn(\x27" ++ tableName ++ "\x27, \x27" ++ c ++
       "\x27, " ++ formatColumnDefinition toDef ++ ");",
     "  await queryInterface.changeColumn(\x27" ++ tableName ++ "\x27, \x27" ++ c ++
       "\x27, " ++ formatColumnDefinition fromDef ++ ");")

/-- Embedding of `MigrationGenerator.generateCreateTable` (lines 81-92). -/
def generateCreateTable (table : String) (definition : List (String × Col)) : String :=
  let columns := definition.map (fun p => "    " ++ p.1 ++ ": " ++ formatColumnDefinition p.2)
  "  await queryInterface.createTable(\x27" ++ table ++ "\x27, \x7b\n" ++
    String.intercalate ",\n" columns ++ "\n  \x7d);"

/-- Embedding of `MigrationGenerator.generateDropTable` (lines 94-96). -/
def generateDropTable (table : String) : String :=
  "  await queryInterface.dropTable(\x27" ++ table ++ "\x27);"

/-- Embedding of `MigrationGenerator.generateAlterTable` (lines 98-114):
forward statements are pushed to the back, backward statements unshifted to
the front, then each list is joined with newlines. -/
def generateAlterTable (table : String) (columns : List ColumnDifference) :
    String × String :=
  let acc := columns.foldl
    (fun (acc : List String × List String) column =>
      let p := generateColumnMigration table column
      (acc.1 ++ [p.1], p.2 :: acc.2))
    ([], [])
  (String.intercalate "\n" acc.1, String.intercalate "\n" acc.2)

/-- Embedding of `MigrationGenerator.generateTableMigration` (lines 59-79). -/
def generateTableMigration (table : TableDifference) : String × String :=
  match table with
  | .create t definition =>
    (generateCreateTable t definition, generateDropTable t)
  | .drop t =>
    (generateDropTable t,
     "// NOTE: Cannot auto-generate recreate for dropped table \x27" ++ t ++ "\x27")
  | .alter t columns => generateAlterTable t columns

/-- Embedding of `MigrationGenerator.formatMigrationStatements`
(lines 249-251). -/
def formatMigrationStatements (statements : List String) : String :=
  String.intercalate "\n\n" (statements.filter (fun stmt => jsTrim stmt != ""))

/-- The `MigrationData` record (src/types.ts), without the file-system side. -/
structure MigrationData where
  timestamp : String
  name : String
  up : String
  down : String
deriving DecidableEq

/-- Embedding of `MigrationGenerator.createMigrationData` (lines 29-57):
the clock-derived `timestamp` and the (possibly random) `migrationName` are
inputs; per-table forward statements are pushed to the back and backward
statements unshifted to the front before joining. -/
def createMigrationData (diff : SchemaDiff) (timestamp migrationName : String) :
    MigrationData :=
  let fileName := timestamp ++ "_" ++ migrationName
  let acc := diff.tables.foldl
    (fun (acc : List String × List String) table =>
      let p := generateTableMigration table
      (acc.1 ++ [p.1], p.2 :: acc.2))
    ([], [])
  { timestamp := timestamp
    name := fileName
    up := formatMigrationStatements acc.1
    down := formatMigrationStatements acc.2 }

/-! ## Concrete fixtures used by counterexamples and witnesses -/

/-- An actual primary-key integer column whose database default is `5`. -/
def exPKDefault : Col :=
  { type := "integer", allowNull := some false, primaryKey := true,
    autoIncrement := false, unique := false, defaultValue := .vStr "5",
    values := false, references := none }

/-- A desired primary-key integer column with no declared default. -/
def moPKDefault : Col :=
  { type := "integer", allowNull := some false, primaryKey := true,
    autoIncrement := false, unique := false, defaultValue := .vUndefined,
    values := false, references := none }

/-- An actual MySQL boolean column: reported type `TINYINT(1)`, raw default `'1'`. -/
def exTinyint : Col :=
  { type := "TINYINT(1)", allowNull := some true, primaryKey := false,
    autoIncrement := false, unique := false, defaultValue := .vStr "1",
    values := false, references := none }

/-- A desired boolean column with default `true`. -/
def moBoolean : Col :=
  { type := "BOOLEAN", allowNull := none, primaryKey := false,
    autoIncrement := false, unique := false, defaultValue := .vBool true,
    values := false, references := none }

/-- An actual column of reported type `real` (normalizes to `float`). -/
def exReal : Col :=
  { type := "real", allowNull := some true, primaryKey := false,
    autoIncrement := false, unique := false, defaultValue := .vNull,
    values := false, references := none }

/-- A desired column of type `DOUBLE` (normalizes to `double`). -/
def moDouble : Col :=
  { type := "DOUBLE", allowNull := some true, primaryKey := false,
    autoIncrement := false, unique := false, defaultValue := .vNull,
    values := false, references := none }

/-- A plain auto-increment integer primary-key attribute. -/
def attrIdPK : Col :=
  { type := "INTEGER", allowNull := some false, primaryKey := true,
    autoIncrement := true, unique := false, defaultValue := .vUndefined,
    values := false, references := none }

/-- A non-auto-increment attribute whose default is a `nextval(...)` string. -/
def attrNextval : Col :=
  { type := "integer", allowNull := some true, primaryKey := false,
    autoIncrement := false, unique := false,
    defaultValue := .vStr "nextval(\x27posts_seq\x27)",
    values := false, references := none }

/-- A one-column `users` model. -/
def modelUsers : ModelT := { tableName := "users", attributes := [("id", attrIdPK)] }

/-- A snapshot in which `showAllTables` throws. -/
def dbListFail : DB := { showAllTables := none, describeTable := fun _ => none }

/-- A snapshot identical to `modelUsers`'s converted definition. -/
def dbUsersOk : DB :=
  { showAllTables := some ["users"]
    describeTable := fun t =>
      if t == "users" then some [("id", convertAttributeToQueryInterface attrIdPK)]
      else none }

/-- A one-column `posts` model whose column is `attrNextval`. -/
def modelPosts : ModelT := { tableName := "posts", attributes := [("seq_col", attrNextval)] }

/-- A snapshot identical to `modelPosts`'s converted definition. -/
def dbPostsOk : DB :=
  { showAllTables := some ["posts"]
    describeTable := fun t =>
      if t == "posts" then some [("seq_col", convertAttributeToQueryInterface attrNextval)]
      else none }

/-! ## General helper lemmas -/

/-- Every output of a `filterMap` satisfies any property its producing
function guarantees. -/
theorem forall_mem_filterMap {α β : Type} {l : List α} {f : α → Option β}
    {P : β → Prop} (h : ∀ a b, f a = some b → P b) :
    ∀ b ∈ l.filterMap f, P b := by
  intro b hb
  rcases List.mem_filterMap.mp hb with ⟨a, _, hfa⟩
  exact h a b hfa

/-- Projections of a `filterMap`'s outputs form a sublist of the matching
projections of the inputs. -/
theorem map_filterMap_sublist {α β γ : Type} (l : List α) (f : α → Option β)
    (g : β → γ) (h : α → γ) (hfg : ∀ a b, f a = some b → g b = h a) :
    ((l.filterMap f).map g).Sublist (l.map h) := by
  induction l with
  | nil => simp
  | cons a t ih =>
    cases hfa : f a with
    | none =>
      rw [List.filterMap_cons, hfa, List.map_cons]
      exact (ih).cons (h a)
    | some b =>
      rw [List.filterMap_cons, hfa, List.map_cons, List.map_cons, hfg a b hfa]
      exact (ih).cons₂ (h a)

/-- Strict equality is reflexive on every normalizer output except the
fresh empty array. -/
theorem jsStrictEq_refl_of_ne_arr {v : JSVal} (h : v ≠ .vArr) :
    jsStrictEq v v = true := by
  cases v <;> simp_all [jsStrictEq]

/-- Type equivalence holds whenever the two normalized tags coincide. -/
theorem typesEquivalentNorm_refl (n : String) (v : Bool) :
    typesEquivalentNorm n n v = true := by
  unfold typesEquivalentNorm
  by_cases h : n = "enum"
  · subst h; simp
  · have h2 : (n == "enum") = false := by simp [h]
    simp [h2]

/-! ## Claim C2 -/

/--
Claim C2 (corrected), counterexample: the spec says default-value comparison
is skipped whenever either side is a primary key, but for the actual
primary-key column `exPKDefault` (database default `'5'`) against the
desired primary-key column `moPKDefault` (no declared default), every facet
other than the default is equal and yet `hasColumnChanged` reports a change,
caused precisely by the differing normalized defaults.
-/
theorem pk_default_comparison_not_skipped_cex :
    hasColumnChanged exPKDefault moPKDefault = true ∧
    exPKDefault.primaryKey = true ∧ moPKDefault.primaryKey = true ∧
    typesEquivalent exPKDefault.type moPKDefault.type moPKDefault.values = true ∧
    existingAllowNullOf exPKDefault = some (modelAllowNullOf moPKDefault) ∧
    exPKDefault.primaryKey = moPKDefault.primaryKey ∧
    existingAutoIncOf exPKDefault = moPKDefault.autoIncrement ∧
    exPKDefault.unique = moPKDefault.unique ∧
    normalizeDefaultValue exPKDefault.defaultValue ≠
      normalizeDefaultValue moPKDefault.defaultValue := by
  decide

/--
Claim C2 (amended): default-value comparison is skipped only when the
desired column is auto-increment and the actual column's raw default is a
string containing `nextval`; in that case, equality of the five other
facets makes `hasColumnChanged` report "unchanged" even when the two
normalized default values differ.  (Being a primary key alone never skips
the comparison — see the counterexample.)
-/
theorem default_skip_only_for_nextval_autoincrement (ex mo : Col)
    (hAI : mo.autoIncrement = true)
    (hNx : isNextvalStr ex.defaultValue = true)
    (hTy : typesEquivalent ex.type mo.type mo.values = true)
    (hNu : existingAllowNullOf ex = some (modelAllowNullOf mo))
    (hPK : ex.primaryKey = mo.primaryKey)
    (hUq : ex.unique = mo.unique) :
    hasColumnChanged ex mo = false := by
  unfold hasColumnChanged
  have hEA : existingAutoIncOf ex = true := by
    unfold existingAutoIncOf; rw [hNx]; simp
  rw [hTy, hNu, hPK, hUq, hEA, hAI, hNx]
  simp

/-- Witness for the amended claim C2 at a concrete pair: actual `id` column
with a `nextval` default, desired auto-increment `id` with no default. -/
theorem default_skip_only_for_nextval_autoincrement_witness :
    hasColumnChanged
      { type := "integer", allowNull := some false, primaryKey := true,
        autoIncrement := false, unique := false,
        defaultValue := .vStr "nextval(\x27users_id_seq\x27)",
        values := false, references := none }
      { type := "INTEGER", allowNull := some false, primaryKey := true,
        autoIncrement := true, unique := false, defaultValue := .vUndefined,
        values := false, references := none } = false :=
  default_skip_only_for_nextval_autoincrement _ _ rfl (by decide) (by decide)
    (by decide) (by decide) (by decide)

/-! ## Claim C3 -/

/--
Claim C3 (corrected), counterexample: an actual MySQL boolean column
reported as `TINYINT(1)` with raw value `'1'` against a desired boolean
column with default `true` IS flagged as changed by `hasColumnChanged`
(src/diff.ts has no dialect-specific boolean-comparison rule; the types
normalize to `tinyint` vs `boolean`).
-/
theorem mysql_tinyint_boolean_flagged_cex :
    hasColumnChanged exTinyint moBoolean = true ∧
    normalizeDataType exTinyint.type = "tinyint" ∧
    normalizeDataType moBoolean.type = "boolean" := by
  decide

/--
Claim C3 (amended): under any dialect, an actual column whose reported type
normalizes to `tinyint` (as MySQL's `tinyint(1)` does) compared against a
desired column whose type normalizes to `boolean` is always reported as
changed: the differ of src/diff.ts has no boolean-comparison rule, and the
normalized types differ.
-/
theorem tinyint_vs_boolean_always_changed (ex mo : Col)
    (hex : normalizeDataType ex.type = "tinyint")
    (hmo : normalizeDataType mo.type = "boolean") :
    hasColumnChanged ex mo = true := by
  have hT : typesEquivalent ex.type mo.type mo.values = false := by
    unfold typesEquivalent
    rw [hex, hmo]
    cases mo.values <;> decide
  unfold hasColumnChanged
  rw [hT]
  simp

/-- Witness for the amended claim C3 at the concrete MySQL pair. -/
theorem tinyint_vs_boolean_always_changed_witness :
    hasColumnChanged exTinyint moBoolean = true :=
  tinyint_vs_boolean_always_changed exTinyint moBoolean (by decide) (by decide)

/-! ## Claim C5 -/

/--
Claim C5 (corrected), counterexample: an actual column of reported type
`real` (normalized `float`) against a desired `DOUBLE` column (normalized
`double`), all other facets equal, IS reported as a column difference:
src/diff.ts has no `float`≡`double` equivalence.
-/
theorem float_double_flagged_cex :
    hasColumnChanged exReal moDouble = true ∧
    normalizeDataType exReal.type = "float" ∧
    normalizeDataType moDouble.type = "double" ∧
    existingAllowNullOf exReal = some (modelAllowNullOf moDouble) ∧
    exReal.primaryKey = moDouble.primaryKey ∧
    existingAutoIncOf exReal = moDouble.autoIncrement ∧
    exReal.unique = moDouble.unique ∧
    normalizeDefaultValue exReal.defaultValue =
      normalizeDefaultValue moDouble.defaultValue := by
  decide

/--
Claim C5 (amended): whenever the two raw types normalize to `float` on one
side and `double` on the other (in either orientation), `hasColumnChanged`
reports a change regardless of the remaining facets: the type-equivalence
predicate of src/diff.ts treats `float` and `double` as distinct.
-/
theorem float_vs_double_always_changed (ex mo : Col)
    (h : (normalizeDataType ex.type = "float" ∧ normalizeDataType mo.type = "double") ∨
         (normalizeDataType ex.type = "double" ∧ normalizeDataType mo.type = "float")) :
    hasColumnChanged ex mo = true := by
  have hT : typesEquivalent ex.type mo.type mo.values = false := by
    unfold typesEquivalent
    rcases h with ⟨h1, h2⟩ | ⟨h1, h2⟩ <;> rw [h1, h2] <;> cases mo.values <;> decide
  unfold hasColumnChanged
  rw [hT]
  simp

/-- Witness for the amended claim C5 at the concrete `real`/`DOUBLE` pair. -/
theorem float_vs_double_always_changed_witness :
    hasColumnChanged exReal moDouble = true :=
  float_vs_double_always_changed exReal moDouble (Or.inl (by decide))

/-- A `filterMap` whose function always succeeds is a `map`. -/
theorem filterMap_of_all_some {α β : Type} (l : List α) (f : α → Option β)
    (g : α → β) (h : ∀ a, f a = some (g a)) : l.filterMap f = l.map g := by
  induction l with
  | nil => rfl
  | cons a t ih => rw [List.filterMap_cons, h a, List.map_cons, ih]

/-- Every successful `diffFromModel` output carries the model's table name. -/
theorem diffFromModel_table {existingTables : List String} {db : DB}
    {model : ModelT} {d : TableDifference}
    (h : diffFromModel existingTables db model = some d) :
    d.table = model.tableName := by
  unfold diffFromModel at h
  split at h
  · cases h; rfl
  · split at h
    · cases h; rfl
    · cases h

/-- A `diffFromModel` output is never a `drop`. -/
theorem diffFromModel_not_drop {existingTables : List String} {db : DB}
    {model : ModelT} {d : TableDifference}
    (h : diffFromModel existingTables db model = some d) :
    d.isDrop = false := by
  unfold diffFromModel at h
  split at h
  · cases h; rfl
  · split at h
    · cases h; rfl
    · cases h

/-- A `diffFromModel` output that is an `alter` carries the model's
(non-empty) column differences. -/
theorem diffFromModel_alter {existingTables : List String} {db : DB}
    {model : ModelT} {t : String} {cols : List ColumnDifference}
    (h : diffFromModel existingTables db model = some (.alter t cols)) :
    t = model.tableName ∧ cols = compareTableColumns model db ∧ cols ≠ [] := by
  unfold diffFromModel at h
  split at h
  · cases h
  · split at h
    next hlen =>
      cases h
      exact ⟨rfl, rfl, List.ne_nil_of_length_pos hlen⟩
    · cases h

/-- Characterization of a successful `diffFromExisting` output. -/
theorem diffFromExisting_eq {modelTableNames : List String}
    {existingTable : String} {d : TableDifference}
    (h : diffFromExisting modelTableNames existingTable = some d) :
    d = .drop existingTable ∧ modelTableNames.contains existingTable = false := by
  unfold diffFromExisting at h
  split at h
  next hc =>
    cases h
    exact ⟨rfl, by simpa using hc⟩
  · cases h

/-! ## Claim C1 -/

/--
Claim C1 (corrected), counterexample: with a snapshot whose `showAllTables`
call throws, `getExistingTables` recovers with an empty list and
`generateDiff` still returns a `SchemaDiff` — here one that creates the
`users` table — instead of aborting and propagating the error.
-/
theorem introspection_failure_returns_diff_cex :
    dbListFail.showAllTables = none ∧
    getExistingTables dbListFail = [] ∧
    generateDiff [modelUsers] dbListFail =
      { tables := [.create "users" (getModelTableDefinition modelUsers)],
        hasChanges := true } := by
  decide

/--
Claim C1 (amended): a total introspection failure (`showAllTables` throws)
is NOT fatal: `getExistingTables` catches it, logs a warning and returns an
empty table list, so `generateDiff` completes and returns a `SchemaDiff`
in which every model table is emitted as a `create` and no table is
dropped.
-/
theorem introspection_failure_yields_all_creates (models : List ModelT) (db : DB)
    (h : db.showAllTables = none) :
    generateDiff models db =
      { tables := models.map (fun m =>
          TableDifference.create m.tableName (getModelTableDefinition m)),
        hasChanges := !models.isEmpty } := by
  have hex : getExistingTables db = [] := by simp [getExistingTables, h]
  simp only [generateDiff, hex]
  rw [filterMap_of_all_some models (diffFromModel [] db)
    (fun m => TableDifference.create m.tableName (getModelTableDefinition m))
    (fun m => rfl)]
  cases models <;> simp

/-- Witness for the amended claim C1 at the concrete failing snapshot. -/
theorem introspection_failure_yields_all_creates_witness :
    generateDiff [modelUsers] dbListFail =
      { tables := [.create "users" (getModelTableDefinition modelUsers)],
        hasChanges := true } := by
  rw [introspection_failure_yields_all_creates [modelUsers] dbListFail rfl]
  rfl

/-! ## Claim C7 -/

/--
Claim C7 (corrected), counterexample: the snapshot `dbPostsOk` is identical
to the `posts` model (same table list, and the described columns are
exactly the model's converted attributes), yet `generateDiff` reports a
change: the column's `nextval(...)` string default makes the actual side
count as auto-increment while the model side is not.
-/
theorem identical_snapshot_not_noop_cex :
    dbPostsOk.showAllTables = some ([modelPosts].map ModelT.tableName) ∧
    dbPostsOk.describeTable modelPosts.tableName =
      some (getModelTableDefinition modelPosts) ∧
    (generateDiff [modelPosts] dbPostsOk).hasChanges = true ∧
    (generateDiff [modelPosts] dbPostsOk).tables ≠ [] := by
  decide

/-- Reflexivity of `hasColumnChanged` against the converted attribute: a
column equal to the conversion of a model attribute is "unchanged",
provided the attribute is not a non-auto-increment column with a `nextval`
string default and its normalized default is not the empty array. -/
theorem hasColumnChanged_convert_self (a : Col)
    (h1 : a.autoIncrement = false → isNextvalStr a.defaultValue = false)
    (h2 : normalizeDefaultValue a.defaultValue ≠ .vArr) :
    hasColumnChanged (convertAttributeToQueryInterface a) a = false := by
  have hTy : typesEquivalent a.type a.type a.values = true :=
    typesEquivalentNorm_refl (normalizeDataType a.type) a.values
  cases hA : a.autoIncrement with
  | true =>
    by_cases hNx : isNextvalStr a.defaultValue = true
    · simp [hasColumnChanged, convertAttributeToQueryInterface,
        existingAllowNullOf, modelAllowNullOf, existingAutoIncOf, hA, hNx,
        hTy, jsStrictEq_refl_of_ne_arr h2]
    · simp [hasColumnChanged, convertAttributeToQueryInterface,
        existingAllowNullOf, modelAllowNullOf, existingAutoIncOf, hA, hNx,
        hTy, jsStrictEq_refl_of_ne_arr h2]
  | false =>
    have hNx := h1 hA
    by_cases hp : a.primaryKey = true
    · simp [hasColumnChanged, convertAttributeToQueryInterface,
        existingAllowNullOf, modelAllowNullOf, existingAutoIncOf, hA, hNx, hp,
        hTy, jsStrictEq_refl_of_ne_arr h2]
    · simp [hasColumnChanged, convertAttributeToQueryInterface,
        existingAllowNullOf, modelAllowNullOf, existingAutoIncOf, hA, hNx, hp,
        hTy, jsStrictEq_refl_of_ne_arr h2]

/-- Looking a key up in the converted attribute list returns exactly the
conversion of that key's attribute, when the keys are unique. -/
theorem lookup_map_convert {attrs : List (String × Col)}
    (hnd : (attrs.map Prod.fst).Nodup) :
    ∀ p ∈ attrs,
      (attrs.map (fun q => (q.1, convertAttributeToQueryInterface q.2))).lookup p.1 =
        some (convertAttributeToQueryInterface p.2) := by
  induction attrs with
  | nil => intro p hp; cases hp
  | cons q t ih =>
    intro p hp
    rcases List.mem_cons.mp hp with rfl | hp
    · simp [List.lookup]
    · have hne : p.1 ≠ q.1 := by
        intro hcontra
        have : q.1 ∈ t.map Prod.fst := by
          rw [← hcontra]
          exact List.mem_map_of_mem Prod.fst hp
        exact (List.nodup_cons.mp hnd).1 this
      have hbeq : (p.1 == q.1) = false := by simp [hne]
      simp only [List.map_cons, List.lookup, hbeq]
      exact ih (List.nodup_cons.mp hnd).2 p hp

/-- Against the converted copy of the same attribute list (unique keys, no
problematic defaults), the add/change loop emits nothing. -/
theorem addsAndChanges_self (attrs : List (String × Col))
    (hnd : (attrs.map Prod.fst).Nodup)
    (hall : ∀ p ∈ attrs,
      (p.2.autoIncrement = false → isNextvalStr p.2.defaultValue = false) ∧
      normalizeDefaultValue p.2.defaultValue ≠ .vArr) :
    addsAndChanges attrs
      (attrs.map (fun q => (q.1, convertAttributeToQueryInterface q.2))) = [] := by
  apply List.filterMap_eq_nil_iff.mpr
  intro p hp
  rw [lookup_map_convert hnd p hp]
  simp [hasColumnChanged_convert_self p.2 (hall p hp).1 (hall p hp).2]

/-- Against the converted copy of the same attribute list, the removal loop
emits nothing. -/
theorem removals_self (attrs : List (String × Col)) :
    removals attrs
      (attrs.map (fun q => (q.1, convertAttributeToQueryInterface q.2))) = [] := by
  apply List.filterMap_eq_nil_iff.mpr
  intro p hp
  rcases List.mem_map.mp hp with ⟨q, hq, rfl⟩
  simp only [removals]
  have hmem : q.1 ∈ attrs.map Prod.fst := List.mem_map_of_mem Prod.fst hq
  simp [hmem]

/--
Claim C7 (amended): diffing a snapshot against an identical snapshot is a
no-op — `hasChanges = false` with an empty table list — provided that
(i) the model table names survive the system-table filter, (ii) each
table's column keys are unique, and (iii) no attribute has a string
default containing `nextval` while not being auto-increment, nor a default
normalizing to the empty array (both of which make the differ flag a
spurious change, as the counterexample shows for `nextval`).
-/
theorem identical_snapshot_noop (models : List ModelT) (db : DB)
    (hshow : db.showAllTables = some (models.map ModelT.tableName))
    (hkeep : ∀ m ∈ models, keepTable m.tableName = true)
    (hdesc : ∀ m ∈ models,
      db.describeTable m.tableName = some (getModelTableDefinition m))
    (hkeys : ∀ m ∈ models, (m.attributes.map Prod.fst).Nodup)
    (hdef : ∀ m ∈ models, ∀ p ∈ m.attributes,
      (p.2.autoIncrement = false → isNextvalStr p.2.defaultValue = false) ∧
      normalizeDefaultValue p.2.defaultValue ≠ .vArr) :
    generateDiff models db = { tables := [], hasChanges := false } := by
  have hex : getExistingTables db = models.map ModelT.tableName := by
    unfold getExistingTables
    rw [hshow]
    apply List.filter_eq_self.mpr
    intro t ht
    rcases List.mem_map.mp ht with ⟨m, hm, rfl⟩
    exact hkeep m hm
  have hcmp : ∀ m ∈ models, compareTableColumns m db = [] := by
    intro m hm
    unfold compareTableColumns
    rw [hdesc m hm]
    show addsAndChanges m.attributes
        (m.attributes.map (fun q => (q.1, convertAttributeToQueryInterface q.2))) ++
      removals m.attributes
        (m.attributes.map (fun q => (q.1, convertAttributeToQueryInterface q.2))) = []
    rw [addsAndChanges_self m.attributes (hkeys m hm) (hdef m hm),
      removals_self m.attributes]
    rfl
  have hfm : models.filterMap (diffFromModel (getExistingTables db) db) = [] := by
    apply List.filterMap_eq_nil_iff.mpr
    intro m hm
    have hmem : m.tableName ∈ getExistingTables db := by
      rw [hex]
      exact List.mem_map_of_mem ModelT.tableName hm
    unfold diffFromModel
    simp [hmem, hcmp m hm]
  have hfe : (getExistingTables db).filterMap
      (diffFromExisting (models.map ModelT.tableName)) = [] := by
    apply List.filterMap_eq_nil_iff.mpr
    intro t ht
    rw [hex] at ht
    unfold diffFromExisting
    simp [ht]
  simp only [generateDiff]
  rw [hfm, hfe]
  rfl

/-- Witness for the amended claim C7: the `users` model against its own
converted snapshot yields no changes. -/
theorem identical_snapshot_noop_witness :
    generateDiff [modelUsers] dbUsersOk = { tables := [], hasChanges := false } :=
  identical_snapshot_noop [modelUsers] dbUsersOk (by decide) (by decide)
    (by decide) (by decide) (by decide)

/-! ## Claim C4 -/

/--
Claim C4 (corrected), counterexample: the type-equivalence decision is not
symmetric — with `timestamp` on the actual side and `date` on the desired
side the time/timestamp rewrite applies and the types are equivalent, but
with the sides swapped the rewrite does not apply and they are not.
-/
theorem type_equivalence_asymmetric_cex :
    typesEquivalent "timestamp" "date" false = true ∧
    typesEquivalent "date" "timestamp" false = false := by
  decide

/--
Claim C4 (amended): the type-equivalence decision is directional, not
symmetric: the enum/varchar and time-timestamp/date special cases fire only
with the `enum` (resp. `date`/`timestamptz`) form on the desired side.
On pairs whose normalized tags coincide the verdict is the same in both
orientations (both equivalent); the four concrete facts exhibit the
directionality of both special cases.
-/
theorem type_equivalence_directional :
    (∀ (a b : String) (v w : Bool), normalizeDataType a = normalizeDataType b →
       typesEquivalent a b v = typesEquivalent b a w) ∧
    typesEquivalent "timestamp" "date" false = true ∧
    typesEquivalent "date" "timestamp" false = false ∧
    typesEquivalent "varchar" "enum" true = true ∧
    typesEquivalent "enum" "varchar" true = false := by
  refine ⟨?_, by decide, by decide, by decide, by decide⟩
  intro a b v w h
  unfold typesEquivalent
  rw [h, typesEquivalentNorm_refl, typesEquivalentNorm_refl]

/-- Witness for the amended claim C4 on a pair with equal normalized tags. -/
theorem type_equivalence_directional_witness :
    typesEquivalent "integer" "INTEGER" false = typesEquivalent "INTEGER" "integer" true :=
  type_equivalence_directional.1 "integer" "INTEGER" false true (by decide)

/-! ## Claim C6 -/

/--
Claim C6 (confirmed): when the model table names are pairwise distinct and
the introspected (filtered) table list is duplicate-free — both guaranteed
by Sequelize model definitions and database catalogs — every table name
appears in at most one `TableDifference` of the generated diff (each
difference carrying exactly one action by construction of
`TableDifference`), and every `alter` difference has a non-empty column
list.
-/
theorem diff_tables_nodup_and_alter_nonempty (models : List ModelT) (db : DB)
    (hm : (models.map ModelT.tableName).Nodup)
    (hdb : (getExistingTables db).Nodup) :
    ((generateDiff models db).tables.map TableDifference.table).Nodup ∧
    ∀ t cols, TableDifference.alter t cols ∈ (generateDiff models db).tables →
      cols ≠ [] := by
  have htab : (generateDiff models db).tables =
      models.filterMap (diffFromModel (getExistingTables db) db) ++
      (getExistingTables db).filterMap
        (diffFromExisting (models.map ModelT.tableName)) := rfl
  constructor
  · rw [htab, List.map_append]
    apply List.Nodup.append
    · exact (map_filterMap_sublist models _ TableDifference.table ModelT.tableName
        (fun a b h => diffFromModel_table h)).nodup hm
    · have hsub := map_filterMap_sublist (getExistingTables db)
        (diffFromExisting (models.map ModelT.tableName))
        TableDifference.table id
        (fun a b h => by rw [(diffFromExisting_eq h).1]; rfl)
      rw [List.map_id] at hsub
      exact hsub.nodup hdb
    · intro x hx1 hx2
      rcases List.mem_map.mp hx1 with ⟨d, hd, rfl⟩
      rcases List.mem_filterMap.mp hd with ⟨mo, hmo, hfmo⟩
      rcases List.mem_map.mp hx2 with ⟨d2, hd2, htab2⟩
      rcases List.mem_filterMap.mp hd2 with ⟨t2, ht2, hft2⟩
      rcases diffFromExisting_eq hft2 with ⟨rfl, hnc⟩
      have hmem : d.table ∈ models.map ModelT.tableName := by
        rw [diffFromModel_table hfmo]
        exact List.mem_map_of_mem ModelT.tableName hmo
      have ht2eq : t2 = d.table := htab2
      rw [ht2eq] at hnc
      have hcontains : (models.map ModelT.tableName).contains d.table = true :=
        List.elem_iff.mpr hmem
      rw [hcontains] at hnc
      cases hnc
  · intro t cols hmem
    rw [htab] at hmem
    rcases List.mem_append.mp hmem with hmem | hmem
    · rcases List.mem_filterMap.mp hmem with ⟨mo, hmo, hf⟩
      exact (diffFromModel_alter hf).2.2
    · rcases List.mem_filterMap.mp hmem with ⟨t2, ht2, hf⟩
      have := (diffFromExisting_eq hf).1
      simp at this

/-- Witness for claim C6 at a concrete run (one model, failing listing). -/
theorem diff_tables_nodup_and_alter_nonempty_witness :
    ((generateDiff [modelUsers] dbListFail).tables.map TableDifference.table).Nodup ∧
    ∀ t cols, TableDifference.alter t cols ∈ (generateDiff [modelUsers] dbListFail).tables →
      cols ≠ [] :=
  diff_tables_nodup_and_alter_nonempty [modelUsers] dbListFail (by decide) (by decide)

/-! ## Claim C9 -/

/--
Claim C9 (confirmed): when describing one specific table fails, the run
does not abort — that table contributes no column differences (so no
`alter` entry is emitted for it), and the comparison of every other table
depends only on that table's own `describeTable` result, hence proceeds
unaffected.  (The warning of the `catch` block is a log side effect outside
the pure embedding.)
-/
theorem describe_failure_local_recovery (models : List ModelT) (db : DB)
    (t : String) (hfail : db.describeTable t = none) :
    (∀ m : ModelT, m.tableName = t → compareTableColumns m db = []) ∧
    (∀ cols, TableDifference.alter t cols ∉ (generateDiff models db).tables) ∧
    (∀ (m : ModelT) (db2 : DB),
       db2.describeTable m.tableName = db.describeTable m.tableName →
       compareTableColumns m db2 = compareTableColumns m db) := by
  have hcmp : ∀ m : ModelT, m.tableName = t → compareTableColumns m db = [] := by
    intro m hmt
    unfold compareTableColumns
    rw [hmt, hfail]
  refine ⟨hcmp, ?_, ?_⟩
  · intro cols hmem
    rcases List.mem_append.mp hmem with hmem | hmem
    · rcases List.mem_filterMap.mp hmem with ⟨mo, hmo, hf⟩
      rcases diffFromModel_alter hf with ⟨hteq, hcols, hne⟩
      rw [hcols, hcmp mo hteq.symm] at hne
      exact hne rfl
    · rcases List.mem_filterMap.mp hmem with ⟨t2, ht2, hf⟩
      have := (diffFromExisting_eq hf).1
      simp at this
  · intro m db2 heq
    unfold compareTableColumns
    rw [heq]

/-- Witness for claim C9 at a concrete failing snapshot. -/
theorem describe_failure_local_recovery_witness :
    compareTableColumns modelUsers dbListFail = [] :=
  (describe_failure_local_recovery [] dbListFail "users" rfl).1 modelUsers rfl

/-- Every output of the add/change loop is an `add` or `change` carrying
the model column's name — never a `remove`. -/
theorem addsAndChanges_props (attrs ex : List (String × Col)) :
    (∀ c ∈ addsAndChanges attrs ex, c.isRemove = false) ∧
    ((addsAndChanges attrs ex).map ColumnDifference.column).Sublist
      (attrs.map Prod.fst) := by
  constructor
  · apply forall_mem_filterMap
    intro p c h
    split at h
    · cases h; rfl
    · split at h
      · cases h; rfl
      · cases h
  · apply map_filterMap_sublist
    intro p c h
    split at h
    · cases h; rfl
    · split at h
      · cases h; rfl
      · cases h

/-- Every output of the removal loop is a `remove` carrying the described
column's name. -/
theorem removals_props (attrs ex : List (String × Col)) :
    (∀ c ∈ removals attrs ex, c.isRemove = true) ∧
    ((removals attrs ex).map ColumnDifference.column).Sublist
      (ex.map Prod.fst) := by
  constructor
  · apply forall_mem_filterMap
    intro p c h
    split at h
    · cases h
    · cases h; rfl
  · apply map_filterMap_sublist
    intro p c h
    split at h
    · cases h
    · cases h; rfl

/-! ## Claim C10 -/

/-- The column names a table's `describeTable` call reports (empty when the
call fails). -/
def describedColumnNames (m : ModelT) (db : DB) : List String :=
  match db.describeTable m.tableName with
  | some existingColumns => existingColumns.map Prod.fst
  | none => []

/--
Claim C10 (confirmed): the table list of every generated diff is its
non-drop entries (whose names follow the model-list order as a sublist)
followed by its drop entries (whose names follow the introspected-table
order); and every table's column-difference list is its add/change entries
(names a sublist of the model's column order) followed by its remove
entries (names a sublist of the described-column order).
-/
theorem diff_ordering_invariant (models : List ModelT) (db : DB) (m : ModelT) :
    ((generateDiff models db).tables.filter (fun d => !d.isDrop) ++
       (generateDiff models db).tables.filter (fun d => d.isDrop) =
       (generateDiff models db).tables) ∧
    (((generateDiff models db).tables.filter (fun d => !d.isDrop)).map
       TableDifference.table).Sublist (models.map ModelT.tableName) ∧
    (((generateDiff models db).tables.filter (fun d => d.isDrop)).map
       TableDifference.table).Sublist (getExistingTables db) ∧
    ((compareTableColumns m db).filter (fun c => !c.isRemove) ++
       (compareTableColumns m db).filter (fun c => c.isRemove) =
       compareTableColumns m db) ∧
    (((compareTableColumns m db).filter (fun c => !c.isRemove)).map
       ColumnDifference.column).Sublist (m.attributes.map Prod.fst) ∧
    (((compareTableColumns m db).filter (fun c => c.isRemove)).map
       ColumnDifference.column).Sublist (describedColumnNames m db) := by
  have h1 : ∀ d ∈ models.filterMap (diffFromModel (getExistingTables db) db),
      d.isDrop = false :=
    forall_mem_filterMap (fun a b h => diffFromModel_not_drop h)
  have h2 : ∀ d ∈ (getExistingTables db).filterMap
      (diffFromExisting (models.map ModelT.tableName)), d.isDrop = true :=
    forall_mem_filterMap (fun a b h => by rw [(diffFromExisting_eq h).1]; rfl)
  have htab : (generateDiff models db).tables =
      models.filterMap (diffFromModel (getExistingTables db) db) ++
      (getExistingTables db).filterMap
        (diffFromExisting (models.map ModelT.tableName)) := rfl
  have hfa : (generateDiff models db).tables.filter (fun d => !d.isDrop) =
      models.filterMap (diffFromModel (getExistingTables db) db) := by
    rw [htab, List.filter_append,
      List.filter_eq_self.mpr (fun a ha => by simp [h1 a ha]),
      List.filter_eq_nil_iff.mpr (fun a ha => by simp [h2 a ha]),
      List.append_nil]
  have hfb : (generateDiff models db).tables.filter (fun d => d.isDrop) =
      (getExistingTables db).filterMap
        (diffFromExisting (models.map ModelT.tableName)) := by
    rw [htab, List.filter_append,
      List.filter_eq_nil_iff.mpr (fun a ha => by simp [h1 a ha]),
      List.filter_eq_self.mpr (fun a ha => h2 a ha),
      List.nil_append]
  refine ⟨by rw [hfa, hfb]; exact htab.symm, ?_, ?_, ?_, ?_, ?_⟩
  · rw [hfa]
    exact map_filterMap_sublist models _ TableDifference.table ModelT.tableName
      (fun a b h => diffFromModel_table h)
  · rw [hfb]
    have hsub := map_filterMap_sublist (getExistingTables db)
      (diffFromExisting (models.map ModelT.tableName)) TableDifference.table id
      (fun a b h => by rw [(diffFromExisting_eq h).1]; rfl)
    rw [List.map_id] at hsub
    exact hsub
  all_goals {
    cases hd : db.describeTable m.tableName with
    | none =>
      have hcc : compareTableColumns m db = [] := by
        unfold compareTableColumns; rw [hd]
      simp [hcc]
    | some ex =>
      have hcc : compareTableColumns m db =
          addsAndChanges m.attributes ex ++ removals m.attributes ex := by
        unfold compareTableColumns; rw [hd]
      have hdn : describedColumnNames m db = ex.map Prod.fst := by
        unfold describedColumnNames; rw [hd]
      have ha1 : ∀ c ∈ addsAndChanges m.attributes ex, c.isRemove = false :=
        (addsAndChanges_props m.attributes ex).1
      have hr1 : ∀ c ∈ removals m.attributes ex, c.isRemove = true :=
        (removals_props m.attributes ex).1
      have hca : (compareTableColumns m db).filter (fun c => !c.isRemove) =
          addsAndChanges m.attributes ex := by
        rw [hcc, List.filter_append,
          List.filter_eq_self.mpr (fun a ha => by simp [ha1 a ha]),
          List.filter_eq_nil_iff.mpr (fun a ha => by simp [hr1 a ha]),
          List.append_nil]
      have hcb : (compareTableColumns m db).filter (fun c => c.isRemove) =
          removals m.attributes ex := by
        rw [hcc, List.filter_append,
          List.filter_eq_nil_iff.mpr (fun a ha => by simp [ha1 a ha]),
          List.filter_eq_self.mpr (fun a ha => hr1 a ha),
          List.nil_append]
      first
      | (rw [hca, hcb]; exact hcc.symm)
      | (rw [hca]; exact (addsAndChanges_props m.attributes ex).2)
      | (rw [hcb, hdn]; exact (removals_props m.attributes ex).2)
  }

/-! ## Claim C8 -/

/-- A fold that pushes forward strings to the back and unshifts backward
strings to the front computes the mapped list and the reversed mapped
list. -/
theorem foldl_push_front {α : Type} (f : α → String × String) :
    ∀ (l : List α) (u d : List String),
      l.foldl (fun acc x => (acc.1 ++ [(f x).1], (f x).2 :: acc.2)) (u, d) =
        (u ++ l.map (fun x => (f x).1), (l.map (fun x => (f x).2)).reverse ++ d) := by
  intro l
  induction l with
  | nil => intro u d; simp
  | cons a t ih =>
    intro u d
    rw [List.foldl_cons, ih]
    simp

/--
Claim C8 (confirmed): in `generateAlterTable` the forward column statements
appear in diff order and the backward statements in exactly the reverse
order, and in `createMigrationData` the down migration lists the per-table
blocks in reverse of the up order.
-/
theorem migration_order_up_forward_down_reversed :
    (∀ (table : String) (columns : List ColumnDifference),
       generateAlterTable table columns =
         (String.intercalate "\n"
            (columns.map (fun c => (generateColumnMigration table c).1)),
          String.intercalate "\n"
            ((columns.map (fun c => (generateColumnMigration table c).2)).reverse))) ∧
    (∀ (diff : SchemaDiff) (timestamp migrationName : String),
       (createMigrationData diff timestamp migrationName).up =
         formatMigrationStatements
           (diff.tables.map (fun tb => (generateTableMigration tb).1)) ∧
       (createMigrationData diff timestamp migrationName).down =
         formatMigrationStatements
           ((diff.tables.map (fun tb => (generateTableMigration tb).2)).reverse)) := by
  constructor
  · intro table columns
    simp only [generateAlterTable]
    rw [foldl_push_front (generateColumnMigration table) columns [] []]
    simp
  · intro diff timestamp migrationName
    simp only [createMigrationData]
    rw [foldl_push_front generateTableMigration diff.tables [] []]
    simp

end SchemaSync
